import Mathlib

/-!
Verification development for the `finance_crawler` repository.

The Python sources are shallowly embedded: pure helpers become Lean
functions, the stateful fetch/crawl/storage code becomes explicit state
passing, and external collaborators (the HTTP transport, dateutil's fuzzy
parser, BeautifulSoup link extraction, the wall clock) are parameters.
Character classes model the ASCII fragment of Python's `\w` and `\s`,
which covers every input appearing in the spec and the configuration.
-/

set_option autoImplicit false
set_option maxRecDepth 100000

namespace FinanceCrawler

/-- ASCII model of Python's regex class `\w` (alphanumeric or underscore). -/
def isWordChar (c : Char) : Bool := c.isAlphanum || c = '_'

/-- ASCII model of Python's regex class `\s` and of `str.strip`'s whitespace. -/
def isSpaceChar (c : Char) : Bool :=
  c = ' ' || c = '\t' || c = '\n' || c = '\r' || c = '\x0b' || c = '\x0c'

/-- Python's `str.strip()`: drop leading and trailing whitespace. -/
def pyStrip (s : List Char) : List Char :=
  ((s.dropWhile isSpaceChar).reverse.dropWhile isSpaceChar).reverse

/-- A `datetime.date` value (year, month, day). -/
structure PyDate where
  year : Nat
  month : Nat
  day : Nat
deriving DecidableEq, Repr

def isLeapYear (y : Nat) : Bool := (y % 4 = 0 && y % 100 ≠ 0) || y % 400 = 0

def daysInMonth (y m : Nat) : Nat :=
  if m = 2 then (if isLeapYear y then 29 else 28)
  else if m = 4 || m = 6 || m = 9 || m = 11 then 30
  else 31

/-- The `datetime.date(y, m, d)` constructor: `some` on valid dates, `none`
models the `ValueError` that the callers catch. -/
def mkDate? (y m d : Nat) : Option PyDate :=
  if 1 ≤ y && y ≤ 9999 && 1 ≤ m && m ≤ 12 && 1 ≤ d && d ≤ daysInMonth y m then
    some ⟨y, m, d⟩
  else none

/-! ### Embedding of the four regex patterns of `extractor.parse_date_string`

`re.search` is modelled as a leftmost scan (`searchPat`) of a
match-at-this-position function (the `step` functions below).  Greedy
`\d{1,2}` groups are modelled by trying the two-digit candidate before the
one-digit candidate (`takeOneOrTwoDigits`), which is exactly the
backtracking order of the Python engine on these patterns. -/

/-- Read exactly `k` digits, returning their value and the rest. -/
def takeDigitsAux : Nat → Nat → List Char → Option (Nat × List Char)
  | 0, acc, l => some (acc, l)
  | k + 1, acc, c :: rest =>
      if c.isDigit then takeDigitsAux k (acc * 10 + (c.toNat - 48)) rest else none
  | _ + 1, _, [] => none

def takeDigits (k : Nat) (l : List Char) : Option (Nat × List Char) :=
  takeDigitsAux k 0 l

/-- Candidates for a greedy `\d{1,2}` group, longest first. -/
def takeOneOrTwoDigits : List Char → List (Nat × List Char)
  | c1 :: c2 :: rest =>
      if c1.isDigit then
        if c2.isDigit then
          [((c1.toNat - 48) * 10 + (c2.toNat - 48), rest), (c1.toNat - 48, c2 :: rest)]
        else [(c1.toNat - 48, c2 :: rest)]
      else []
  | [c1] => if c1.isDigit then [(c1.toNat - 48, [])] else []
  | [] => []

def firstSome {α β : Type} (f : α → Option β) : List α → Option β
  | [] => none
  | a :: rest =>
      match f a with
      | some b => some b
      | none => firstSome f rest

/-- A `\b` boundary just before a word character: holds when the previous
character is absent or a non-word character. -/
def boundaryBefore (prev : Option Char) : Bool :=
  match prev with
  | none => true
  | some c => !isWordChar c

/-- A `\b` boundary just after a word character. -/
def boundaryAfter (l : List Char) : Bool :=
  match l with
  | [] => true
  | c :: _ => !isWordChar c

def isDateSep (c : Char) : Bool := c = '-' || c = '/'

/-- Match the first pattern of the source at the current position. -/
def stepYMD (prev : Option Char) (l : List Char) : Option (Nat × Nat × Nat) :=
  if !boundaryBefore prev then none
  else
    (takeDigits 4 l).bind fun (y, l1) =>
      match l1 with
      | s1 :: l2 =>
          if !isDateSep s1 then none
          else
            firstSome (fun (m, l3) =>
              match l3 with
              | s2 :: l4 =>
                  if !isDateSep s2 then none
                  else
                    firstSome (fun (d, l5) =>
                        if boundaryAfter l5 then some (y, m, d) else none)
                      (takeOneOrTwoDigits l4)
              | [] => none)
              (takeOneOrTwoDigits l2)
      | [] => none

/-- Match the second pattern of the source at the current position. -/
def stepDMY (prev : Option Char) (l : List Char) : Option (Nat × Nat × Nat) :=
  if !boundaryBefore prev then none
  else
    firstSome (fun (d, l1) =>
      match l1 with
      | s1 :: l2 =>
          if !isDateSep s1 then none
          else
            firstSome (fun (m, l3) =>
              match l3 with
              | s2 :: l4 =>
                  if !isDateSep s2 then none
                  else
                    (takeDigits 4 l4).bind fun (y, l5) =>
                      if boundaryAfter l5 then some (d, m, y) else none
              | [] => none)
              (takeOneOrTwoDigits l2)
      | [] => none)
      (takeOneOrTwoDigits l)

/-- Match the third pattern of the source (bare year) at the current position. -/
def stepYear (prev : Option Char) (l : List Char) : Option Nat :=
  if !boundaryBefore prev then none
  else
    (takeDigits 4 l).bind fun (y, l1) =>
      if boundaryAfter l1 then some y else none

/-- Match the fourth pattern of the source at the current position. -/
def stepMY (prev : Option Char) (l : List Char) : Option (Nat × Nat) :=
  if !boundaryBefore prev then none
  else
    firstSome (fun (m, l1) =>
      match l1 with
      | s1 :: l2 =>
          if !isDateSep s1 then none
          else
            (takeDigits 4 l2).bind fun (y, l3) =>
              if boundaryAfter l3 then some (m, y) else none
      | [] => none)
      (takeOneOrTwoDigits l)

/-- Leftmost-match scan, the model of `re.search` for the step functions. -/
def searchPat {α : Type} (step : Option Char → List Char → Option α) :
    Option Char → List Char → Option α
  | prev, [] => step prev []
  | prev, c :: rest =>
      match step prev (c :: rest) with
      | some r => some r
      | none => searchPat step (some c) rest

/-- The cleaning sub of the source: strip, then drop every character
outside the allowed class. -/
def cleanDateChars (s : List Char) : List Char :=
  (pyStrip s).filter (fun c => isWordChar c || isSpaceChar c || c = '-' || c = '/')

/-- Embedding of `extractor.parse_date_string`.  `fuzzy` stands for the
external `dateutil.parser.parse(date_str, fuzzy=True)` fallback
(returning `none` models the exception the source catches).  Note that the
source unpacks a three-group match as `year, month, day = match.groups()`
for both three-group patterns, and checks the bare-year range before
trying the two-group pattern — both are kept faithfully. -/
def parse_date_string (fuzzy : String → Option PyDate) (s : String) : Option PyDate :=
  if s = "" then none
  else
    let cl := cleanDateChars s.data
    let a1 := (searchPat stepYMD none cl).bind fun (y, m, d) => mkDate? y m d
    let a2 := (searchPat stepDMY none cl).bind fun (a, b, c) => mkDate? a b c
    let a3 := (searchPat stepYear none cl).bind fun y =>
      if 1900 ≤ y && y ≤ 2030 then some (PyDate.mk y 1 1) else none
    let a4 := (searchPat stepMY none cl).bind fun (m, y) => mkDate? y m 1
    a1 <|> a2 <|> a3 <|> a4 <|> fuzzy (String.mk cl)

example : parse_date_string (fun _ => none) "2024-03-15" = some ⟨2024, 3, 15⟩ := by decide
example : parse_date_string (fun _ => none) "03/2024" = some ⟨2024, 1, 1⟩ := by decide
example : parse_date_string (fun _ => none) "2024" = some ⟨2024, 1, 1⟩ := by decide
example : parse_date_string (fun _ => none) "1850" = none := by decide
example : parse_date_string (fun _ => some ⟨1850, 10, 12⟩) "1850" = some ⟨1850, 10, 12⟩ := by decide
example : parse_date_string (fun _ => none) "15-03-2024" = some ⟨2024, 1, 1⟩ := by decide

/-! ### URL splitting (model of `urllib.parse.urlparse` for the URL shapes
this repository handles: absolute `scheme://netloc/path?query#fragment`
URLs and plain relative paths; no `;parameters` handling). -/

structure UrlParts where
  scheme : String
  netloc : String
  path : String
  query : String
  fragment : String
deriving DecidableEq, Repr

/-- Split a character list at the first occurrence of `sep`; the separator
itself is kept in neither part.  If `sep` is absent the second part is empty. -/
def splitAtChar (sep : Char) (l : List Char) : List Char × List Char :=
  (l.takeWhile (fun c => c ≠ sep), (l.dropWhile (fun c => c ≠ sep)).drop 1)

def isSchemeChar (c : Char) : Bool := c.isAlphanum || c = '+' || c = '-' || c = '.'

def urlsplitModel (s : String) : UrlParts :=
  let (beforeFrag, frag) := splitAtChar '#' s.data
  let schemeCand := beforeFrag.takeWhile (fun c => c ≠ ':')
  let rest := beforeFrag.drop schemeCand.length
  if rest.take 3 = [':', '/', '/'] && schemeCand ≠ [] && schemeCand.all isSchemeChar then
    let afterSS := rest.drop 3
    let netloc := afterSS.takeWhile (fun c => c ≠ '/' && c ≠ '?')
    let rest2 := afterSS.drop netloc.length
    let (path, query) := splitAtChar '?' rest2
    ⟨String.mk (schemeCand.map Char.toLower), String.mk netloc, String.mk path,
      String.mk query, String.mk frag⟩
  else
    let (path, query) := splitAtChar '?' beforeFrag
    ⟨"", "", String.mk path, String.mk query, String.mk frag⟩

example : urlsplitModel "https://example.com/a/b.pdf?x=1#frag" =
    ⟨"https", "example.com", "/a/b.pdf", "x=1", "frag"⟩ := by decide

/-! ### `utils.py` -/

def endsWithChars (l suffix : List Char) : Bool :=
  suffix.reverse.isPrefixOf l.reverse

/-- Embedding of `utils.url_filetype`. -/
def url_filetype (url : String) : Option String :=
  let path := ((urlsplitModel url).path.data).map Char.toLower
  if endsWithChars path ".pdf".data then some "pdf"
  else if endsWithChars path ".csv".data then some "csv"
  else if endsWithChars path ".xlsx".data then some "xlsx"
  else if endsWithChars path ".xls".data then some "xls"
  else if endsWithChars path ".html".data || endsWithChars path ".htm".data then some "html"
  else none

example : url_filetype "https://example.com/document.pdf" = some "pdf" := by decide
example : url_filetype "https://example.com/page.htm" = some "html" := by decide
example : url_filetype "https://example.com/noextension" = none := by decide

/-- Python's `str.strip('/')`. -/
def stripSlashes (l : List Char) : List Char :=
  ((l.dropWhile (fun c => c = '/')).reverse.dropWhile (fun c => c = '/')).reverse

/-- `path.split('/')[-1]`: the characters after the last slash. -/
def lastSegment (l : List Char) : List Char :=
  (l.reverse.takeWhile (fun c => c ≠ '/')).reverse

/-- The sub `re.sub(r'\.[^.]+$', '', name)`: remove a final dot-extension
when the last dot has at least one (dot-free) character after it. -/
def stripExtension (l : List Char) : List Char :=
  match (l.reverse).findIdx? (fun c => c = '.') with
  | some i => if 1 ≤ i then l.take (l.length - 1 - i) else l
  | none => l

/-- The sub `re.sub(r'\s+', '_', name)`: each maximal whitespace run becomes
one underscore.  The flag records whether we are inside a run. -/
def collapseSpacesAux : Bool → List Char → List Char
  | _, [] => []
  | inRun, c :: rest =>
      if isSpaceChar c then
        if inRun then collapseSpacesAux true rest
        else '_' :: collapseSpacesAux true rest
      else c :: collapseSpacesAux false rest

/-- Embedding of `utils.short_title_from_url`. -/
def short_title_from_url (url : String) : String :=
  let path := stripSlashes (urlsplitModel url).path.data
  let filename := if path = [] then "document".data else lastSegment path
  let f1 := stripExtension filename
  let f2 := f1.filter (fun c => isWordChar c || isSpaceChar c || c = '-')
  let f3 := collapseSpacesAux false f2
  let f4 := f3.take 50
  if f4 = [] then "document" else String.mk f4

example : short_title_from_url "https://example.com/document.pdf" = "document" := by decide
example : short_title_from_url "https://example.com/path/to/long-document-name.pdf" =
    "long-document-name" := by decide
example : short_title_from_url "https://example.com/" = "document" := by decide
example : short_title_from_url "https://example.com/special-chars!@#.pdf" =
    "special-chars" := by decide

/-! ### SHA-1 (the `hashlib.sha1` collaborator of `generate_document_id`),
implemented over `Nat` with explicit reduction modulo `2 ^ 32`. -/

def w32 (n : Nat) : Nat := n % 4294967296

def rotl32 (s n : Nat) : Nat := ((n <<< s) ||| (n >>> (32 - s))) % 4294967296

/-- Big-endian byte expansion, `k` bytes. -/
def beBytes : Nat → Nat → List Nat
  | 0, _ => []
  | k + 1, n => beBytes k (n / 256) ++ [n % 256]

/-- SHA-1 padding: `0x80`, zeros to 56 mod 64, then the 8-byte bit length. -/
def sha1Pad (msg : List Nat) : List Nat :=
  let z := (119 - msg.length % 64) % 64
  msg ++ 128 :: List.replicate z 0 ++ beBytes 8 (msg.length * 8)

def bytesToWords : List Nat → List Nat
  | b0 :: b1 :: b2 :: b3 :: rest =>
      (((b0 * 256 + b1) * 256 + b2) * 256 + b3) :: bytesToWords rest
  | _ => []

/-- Message-schedule extension, on the reversed word list (newest first). -/
def sha1Extend : Nat → List Nat → List Nat
  | 0, ws => ws
  | k + 1, ws =>
      sha1Extend k (rotl32 1 (ws.getD 2 0 ^^^ ws.getD 7 0 ^^^ ws.getD 13 0 ^^^ ws.getD 15 0) :: ws)

def sha1F (i b c d : Nat) : Nat :=
  if i < 20 then (b &&& c) ||| ((b ^^^ 4294967295) &&& d)
  else if i < 40 then b ^^^ c ^^^ d
  else if i < 60 then (b &&& c) ||| (b &&& d) ||| (c &&& d)
  else b ^^^ c ^^^ d

def sha1K (i : Nat) : Nat :=
  if i < 20 then 0x5A827999
  else if i < 40 then 0x6ED9EBA1
  else if i < 60 then 0x8F1BBCDC
  else 0xCA62C1D6

def sha1Rounds : Nat → List Nat → Nat × Nat × Nat × Nat × Nat → Nat × Nat × Nat × Nat × Nat
  | _, [], st => st
  | i, w :: ws, (a, b, c, d, e) =>
      let t := w32 (rotl32 5 a + sha1F i b c d + e + sha1K i + w)
      sha1Rounds (i + 1) ws (t, a, rotl32 30 b, c, d)

def sha1ProcessChunk (h : Nat × Nat × Nat × Nat × Nat) (chunk : List Nat) :
    Nat × Nat × Nat × Nat × Nat :=
  let ws := (sha1Extend 64 (bytesToWords chunk).reverse).reverse
  match h, sha1Rounds 0 ws h with
  | (h0, h1, h2, h3, h4), (a, b, c, d, e) =>
      (w32 (h0 + a), w32 (h1 + b), w32 (h2 + c), w32 (h3 + d), w32 (h4 + e))

def chunks64 : Nat → List Nat → List (List Nat)
  | 0, _ => []
  | _ + 1, [] => []
  | k + 1, l => l.take 64 :: chunks64 k (l.drop 64)

def hexDigit (n : Nat) : Char :=
  if n < 10 then Char.ofNat (48 + n) else Char.ofNat (87 + n)

def toHexNibbles : Nat → Nat → List Char
  | 0, _ => []
  | k + 1, n => toHexNibbles k (n / 16) ++ [hexDigit (n % 16)]

/-- `hashlib.sha1(bytes).hexdigest()` over a byte list. -/
def sha1Hex (msg : List Nat) : String :=
  let padded := sha1Pad msg
  let st := (chunks64 padded.length padded).foldl sha1ProcessChunk
    (0x67452301, 0xEFCDAB89, 0x98BADCFE, 0x10325476, 0xC3D2E1F0)
  match st with
  | (h0, h1, h2, h3, h4) =>
      String.mk (toHexNibbles 8 h0 ++ toHexNibbles 8 h1 ++ toHexNibbles 8 h2 ++
        toHexNibbles 8 h3 ++ toHexNibbles 8 h4)

/-- UTF-8 encoding of a character (model of Python's `str.encode()`). -/
def utf8EncodeCharBytes (c : Char) : List Nat :=
  let n := c.toNat
  if n < 128 then [n]
  else if n < 2048 then [192 + n / 64, 128 + n % 64]
  else if n < 65536 then [224 + n / 4096, 128 + (n / 64) % 64, 128 + n % 64]
  else [240 + n / 262144, 128 + (n / 4096) % 64, 128 + (n / 64) % 64, 128 + n % 64]

def utf8Bytes (s : String) : List Nat :=
  (s.data.map utf8EncodeCharBytes).flatten

/-- Embedding of `utils.generate_document_id`. -/
def generate_document_id (url title : String) : String :=
  sha1Hex (utf8Bytes (url ++ "|" ++ title))

example : sha1Hex (utf8Bytes "abc") = "a9993e364706816aba3e25717850c26c9cd0d89d" := by decide
example : sha1Hex [] = "da39a3ee5e6b4b0d3255bfef95601890afd80709" := by decide

/-! ### `fetcher.py`: the SQLite-backed cache and `AsyncFetcher.fetch`

The cache table (one row per URL, `INSERT OR REPLACE`) is modelled as an
association list of entries keyed by `CacheEntry.url`; `datetime.now()` is
the parameter `now`.  The HTTP transport is the parameter `env`: on each
attempt `httpx.AsyncClient.get` either returns a response — with any
status code, since `get` never raises `httpx.HTTPStatusError` (that
exception is produced only by `Response.raise_for_status`, which `fetch`
never calls, leaving the source's first `except` branch unreachable) — or
raises a transport-level exception (`GetOutcome.netExc`), which the
source's generic `except` branch handles by backoff-retrying and
re-raising on the last attempt. -/

structure CacheEntry where
  url : String
  etag : Option String
  last_modified : Option String
  status : Nat
  stored_at : Nat
deriving DecidableEq, Repr

def getCacheEntry (cache : List CacheEntry) (url : String) : Option CacheEntry :=
  cache.find? (fun e => e.url = url)

/-- `INSERT OR REPLACE INTO cache` keyed by url. -/
def setCacheEntry (cache : List CacheEntry) (e : CacheEntry) : List CacheEntry :=
  if cache.any (fun x => x.url = e.url) then
    cache.map (fun x => if x.url = e.url then e else x)
  else cache ++ [e]

structure HttpResponse where
  status : Nat
  content : List Nat
  headers : List (String × String)
deriving DecidableEq, Repr

inductive GetOutcome
  | resp (r : HttpResponse)
  | netExc
deriving DecidableEq, Repr

def headerGet (hs : List (String × String)) (k : String) : Option String :=
  (hs.find? (fun p => p.fst = k)).map (fun p => p.snd)

/-- The dictionary `fetch` returns on success. -/
structure FetchOk where
  url : String
  status_code : Nat
  content : Option (List Nat)
  headers : List (String × String)
  cached : Bool
deriving DecidableEq, Repr

/-- How a call to `fetch` ends: a returned dictionary, the `return None`
after the loop, or an uncaught exception. -/
inductive FetchOut
  | ok (r : FetchOk)
  | noneRet
  | raised
deriving DecidableEq, Repr

/-- The conditional request headers built from the cached entry. -/
def condHeaders (ua : String) (ce : Option CacheEntry) : List (String × String) :=
  [("User-Agent", ua)] ++
    (match ce.bind CacheEntry.etag with
     | some t => [("If-None-Match", t)]
     | none => []) ++
    (match ce.bind CacheEntry.last_modified with
     | some lm => [("If-Modified-Since", lm)]
     | none => [])

/-- The retry loop of `fetch`.  `rem` is the number of loop iterations left
(`maxRetries - attempt`); the result carries the final cache and the total
seconds slept in backoffs. -/
def fetchLoop (env : Nat → List (String × String) → GetOutcome) (url : String)
    (headers : List (String × String)) (now maxRetries : Nat) :
    Nat → Nat → List CacheEntry → Nat → FetchOut × List CacheEntry × Nat
  | _, 0, cache, slept => (.noneRet, cache, slept)
  | attempt, rem + 1, cache, slept =>
      match env attempt headers with
      | .resp r =>
          if r.status = 304 then
            (.ok ⟨url, 200, none, r.headers, true⟩, cache, slept)
          else
            let entry : CacheEntry :=
              ⟨url, headerGet r.headers "etag", headerGet r.headers "last-modified", r.status, now⟩
            (.ok ⟨url, r.status, some r.content, r.headers, false⟩, setCacheEntry cache entry, slept)
      | .netExc =>
          if attempt < maxRetries - 1 then
            fetchLoop env url headers now maxRetries (attempt + 1) rem cache (slept + 2 ^ attempt)
          else (.raised, cache, slept)

/-- Embedding of `AsyncFetcher.fetch`. -/
def fetch (env : Nat → List (String × String) → GetOutcome) (ua url : String)
    (cache : List CacheEntry) (now : Nat) (maxRetries : Nat) :
    FetchOut × List CacheEntry × Nat :=
  fetchLoop env url (condHeaders ua (getCacheEntry cache url)) now maxRetries 0 maxRetries cache 0

/-! ### `robots.py`: `RobotsChecker.is_allowed`

`urllib.robotparser.RobotFileParser` (CPython) is the collaborator that
decides everything here, so its relevant fragment is embedded: `read`
swallows `HTTPError` 401/403 by setting `disallow_all`, other 4xx by
setting `allow_all`, leaves the parser untouched on 5xx, lets
network-level exceptions propagate (the repository catches them with
`pass`), and on success parses the body, which sets `last_checked`.
`can_fetch` returns `False` when `disallow_all` is set or when the file
was never successfully read (`last_checked` unset); evaluation of actually
parsed rules is abstracted as `evalRules`. -/

structure RobotParserState where
  disallow_all : Bool
  allow_all : Bool
  last_checked : Bool
  lines : List String
deriving DecidableEq, Repr

def freshRobotParser : RobotParserState := ⟨false, false, false, []⟩

inductive RobotsFetchOutcome
  | httpError (code : Nat)
  | netExc
  | body (lines : List String)
deriving DecidableEq, Repr

/-- `RobotFileParser.read` given the outcome of fetching robots.txt; for
`netExc` the exception propagates, so the caller sees the state unchanged. -/
def robotRead (st : RobotParserState) (o : RobotsFetchOutcome) : RobotParserState :=
  match o with
  | .httpError code =>
      if code = 401 || code = 403 then { st with disallow_all := true }
      else if 400 ≤ code && code < 500 then { st with allow_all := true }
      else st
  | .netExc => st
  | .body ls => { st with last_checked := true, lines := ls }

/-- `RobotFileParser.can_fetch`. -/
def canFetch (evalRules : List String → String → String → Bool)
    (st : RobotParserState) (ua url : String) : Bool :=
  if st.disallow_all then false
  else if st.allow_all then true
  else if !st.last_checked then false
  else evalRules st.lines ua url

/-- Embedding of `RobotsChecker.is_allowed`.  `fetchRobots` is the outcome
of fetching `origin/robots.txt`; the per-origin parser cache is an
association list.  The source's second `try` (around `can_fetch`) never
fires in this model since `canFetch` is total. -/
def RobotsChecker.is_allowed (evalRules : List String → String → String → Bool)
    (fetchRobots : String → RobotsFetchOutcome)
    (cache : List (String × RobotParserState)) (url ua : String) :
    Bool × List (String × RobotParserState) :=
  let parts := urlsplitModel url
  let base := parts.scheme ++ "://" ++ parts.netloc
  let (rp, cache') :=
    match cache.find? (fun p => p.fst = base) with
    | some p => (p.snd, cache)
    | none =>
        let st := robotRead freshRobotParser (fetchRobots (base ++ "/robots.txt"))
        (st, cache ++ [(base, st)])
  (canFetch evalRules rp ua url, cache')

/-! ### `schema.py` -/

structure QualityFlags where
  is_official : Bool := true
  has_methodology : Bool := false
  within_24_months : Option Bool := none
  has_downloadable_file : Bool := true
deriving DecidableEq, Repr

structure DocumentRecord where
  id : String
  title : String
  summary : Option String := none
  domain : String
  topic_tags : List String := []
  jurisdiction : String := "IN"
  source_tier : Nat := 1
  source_org : String
  source_url : String
  file_type : String
  published_date : Option PyDate := none
  last_checked : Option PyDate := none
  version_or_circular_no : Option String := none
  copyright : String := "unknown"
  language : String := "en"
  intended_audience : String := "education"
  quality_flags : QualityFlags
  storage_path : Option String := none
deriving DecidableEq, Repr

/-! ### `sources/base.py`: `SourceConfig` and `GenericSpider.crawl`

The compiled allow/deny regexes become decision functions
(`String → Bool`); the concrete patterns of the spec scenario are
implemented below as such functions. -/

structure SourceConfig where
  name : String
  domain_tag : String
  source_org : String
  start_urls : List String
  allowMatchers : List (String → Bool)
  denyMatchers : List (String → Bool)
  max_depth : Nat := 2
  max_pages : Nat := 200
  filetypes : List String := ["pdf", "csv", "xlsx", "xls", "html"]

def SourceConfig.is_url_allowed (c : SourceConfig) (url : String) : Bool :=
  if c.allowMatchers.isEmpty then true
  else c.allowMatchers.any (fun m => m url)

def SourceConfig.is_url_denied (c : SourceConfig) (url : String) : Bool :=
  if c.denyMatchers.isEmpty then false
  else c.denyMatchers.any (fun m => m url)

def SourceConfig.should_process_url (c : SourceConfig) (url : String) : Bool :=
  c.is_url_allowed url && !c.is_url_denied url

/-- What the frontier does with the value `fetch` returned: the source
checks `not response or response['status_code'] != 200` and then
`not content` (both `None` and `b""` are falsy). -/
inductive GateDecision
  | abandonStatus
  | abandonContent
  | proceed (content : List Nat)
deriving DecidableEq, Repr

/-- The response gate of `GenericSpider.crawl`.  A `raised` fetch is
caught by the surrounding `except` with the same effect as an abandon. -/
def frontierGate : FetchOut → GateDecision
  | .noneRet => .abandonStatus
  | .raised => .abandonStatus
  | .ok r =>
      if r.status_code ≠ 200 then .abandonStatus
      else
        match r.content with
        | none => .abandonContent
        | some [] => .abandonContent
        | some c => .proceed c

/-- External collaborators of one crawl: the robots decision, the fetcher,
link extraction (`extract_html_links` composed with `canonical_url`), and
`_create_document_record` (whose swallowed exceptions are `none`). -/
structure CrawlEnv where
  robotsAllowed : String → Bool
  fetchF : String → FetchOut
  htmlLinks : String → List Nat → List String
  createRecord : String → List Nat → String → Option DocumentRecord

/-- The spider's mutable state across crawl iterations (and across crawl
invocations on the same `GenericSpider` instance). -/
structure CrawlState where
  visited : List String
  processed_count : Nat
deriving DecidableEq, Repr

/-- The loop body of `GenericSpider.crawl` after `visited_urls.add(url)`
(source lines 89-117), given the state `st'` that already contains `url`:
route the fetched response through the gate, then either enqueue the fresh
canonical links of an html page (at `depth + 1`), or build a document
record and bump `processed_count`, or do nothing.  Returns the queue
entries to append, the updated state, and the produced record if any. -/
def spiderStep (cfg : SourceConfig) (env : CrawlEnv) (url : String) (depth : Nat)
    (st' : CrawlState) : List (String × Nat) × CrawlState × Option DocumentRecord :=
  match frontierGate (env.fetchF url) with
  | .abandonStatus => ([], st', none)
  | .abandonContent => ([], st', none)
  | .proceed content =>
      match url_filetype url with
      | some ft =>
          if ft = "html" then
            (((env.htmlLinks url content).filter (fun l => l ∉ st'.visited)).map
              (fun l => (l, depth + 1)), st', none)
          else if ft ∈ cfg.filetypes then
            match env.createRecord url content ft with
            | some doc => ([], { st' with processed_count := st'.processed_count + 1 }, some doc)
            | none => ([], st', none)
          else ([], st', none)
      | none => ([], st', none)

/-- One run of the while-loop of `GenericSpider.crawl`, fuelled.  Returns
the accumulated document records, the final spider state, and the list of
URLs passed to `fetcher.fetch`, in call order. -/
def crawlAux (cfg : SourceConfig) (env : CrawlEnv) (maxPages : Nat) :
    Nat → List (String × Nat) → CrawlState → List DocumentRecord × CrawlState × List String
  | 0, _, st => ([], st, [])
  | _ + 1, [], st => ([], st, [])
  | fuel + 1, (url, depth) :: rest, st =>
      if st.processed_count ≥ maxPages then ([], st, [])
      else if url ∈ st.visited || depth > cfg.max_depth then
        crawlAux cfg env maxPages fuel rest st
      else if !env.robotsAllowed url then crawlAux cfg env maxPages fuel rest st
      else if !cfg.should_process_url url then crawlAux cfg env maxPages fuel rest st
      else
        let s := spiderStep cfg env url depth { st with visited := url :: st.visited }
        let r := crawlAux cfg env maxPages fuel (rest ++ s.1) s.2.1
        (s.2.2.toList ++ r.1, r.2.1, url :: r.2.2)

/-- `GenericSpider.crawl` from a given spider state: the queue is seeded
with the start URLs at depth 0. -/
def crawl (cfg : SourceConfig) (env : CrawlEnv) (maxPages fuel : Nat) (st : CrawlState) :
    List DocumentRecord × CrawlState × List String :=
  crawlAux cfg env maxPages fuel (cfg.start_urls.map (fun u => (u, 0))) st

/-! ### `storage.py`: `DocumentStorage._generate_storage_path` and
`DocumentStorage.save_document`

`date.today()` is the parameter `today`; filesystem effects are recorded
as events, and the existence check `file_path.exists() and
file_path.stat().st_size == len(content)` is the parameter
`fileExistsSameSize`.  The `except` around the final write (a disk error)
is not modelled: the claims under study concern the dry-run and path
contracts. -/

/-- Decimal digits of a number, as `str` renders it. -/
def natToCharsAux : Nat → Nat → List Char
  | 0, _ => []
  | fuel + 1, n =>
      if n < 10 then [Char.ofNat (48 + n)]
      else natToCharsAux fuel (n / 10) ++ [Char.ofNat (48 + n % 10)]

def natToChars (n : Nat) : List Char := natToCharsAux (n + 1) n

def padLeftZeros (w : Nat) (l : List Char) : List Char :=
  List.replicate (w - l.length) '0' ++ l

/-- `date.strftime("%Y-%m-%d")`. -/
def fmtDate (d : PyDate) : String :=
  String.mk (padLeftZeros 4 (natToChars d.year)) ++ "-" ++
    String.mk (padLeftZeros 2 (natToChars d.month)) ++ "-" ++
    String.mk (padLeftZeros 2 (natToChars d.day))

/-- `source_org.lower().replace(' ', '_')`. -/
def lowerUnderscoreOrg (s : String) : String :=
  String.mk ((s.data.map Char.toLower).map (fun c => if c = ' ' then '_' else c))

/-- Embedding of `DocumentStorage._generate_storage_path`. -/
def generate_storage_path (today : PyDate) (r : DocumentRecord) : String :=
  let source_org := lowerUnderscoreOrg r.source_org
  let year := match r.published_date with
    | some d => String.mk (natToChars d.year)
    | none => String.mk (natToChars today.year)
  let st0 := short_title_from_url r.source_url
  let short_title := if st0.length > 30 then String.mk (st0.data.take 30) else st0
  let date_str := match r.published_date with
    | some d => fmtDate d
    | none => "undated"
  let filename := r.file_type ++ "__" ++ short_title ++ "__" ++ date_str ++ "." ++ r.file_type
  r.domain ++ "/" ++ source_org ++ "/" ++ year ++ "/" ++ filename

inductive WriteEvent
  | mkdirParent (path : String)
  | fileWrite (path : String) (content : List Nat)
  | catalogAppend (r : DocumentRecord)
deriving DecidableEq, Repr

structure SaveResult where
  ok : Bool
  record : DocumentRecord
  reported : Option String
  writes : List WriteEvent
deriving DecidableEq, Repr

/-- Embedding of `DocumentStorage.save_document`.  `reported` is the
storage-path value shown in the log line of the taken branch. -/
def save_document (today : PyDate) (fileExistsSameSize : String → Bool)
    (r : DocumentRecord) (content : List Nat) (dry_run : Bool) : SaveResult :=
  if dry_run then ⟨true, r, r.storage_path, []⟩
  else
    let sp := generate_storage_path today r
    let r' := { r with storage_path := some sp }
    if fileExistsSameSize sp then
      ⟨true, r', some sp, [.mkdirParent sp, .catalogAppend r']⟩
    else
      ⟨true, r', some sp, [.mkdirParent sp, .fileWrite sp content, .catalogAppend r']⟩

/-! ### Concrete regex matchers and sample values used by the claims -/

/-- Substring occurrence (the search semantics of a literal pattern). -/
def containsSub (l sub : List Char) : Bool :=
  (List.range (l.length + 1)).any (fun i => sub.isPrefixOf (l.drop i))

/-- The compiled pattern `example\.com/.+\.pdf$` under `re.search`: some
position starts the literal `example.com/`, followed by one or more
non-newline characters, with `.pdf` closing the string.  (Python also lets
`$` match before one trailing newline; the URLs under study contain none.) -/
def allowPatExample (s : String) : Bool :=
  let l := s.data
  (List.range (l.length + 1)).any (fun i =>
    ("example.com/".data).isPrefixOf (l.drop i) &&
    decide (i + 17 ≤ l.length) &&
    endsWithChars l ".pdf".data &&
    ((l.drop (i + 12)).take (l.length - (i + 12) - 4)).all (fun c => c ≠ '\n'))

/-- The compiled pattern `login` under `re.search`. -/
def denyPatLogin (s : String) : Bool := containsSub s.data "login".data

/-- The source configuration of the spec scenario for URL filtering. -/
def scenarioConfig : SourceConfig :=
  { name := "Test", domain_tag := "stock_equity", source_org := "Test",
    start_urls := ["https://example.com"],
    allowMatchers := [allowPatExample], denyMatchers := [denyPatLogin] }

/-- A configuration with an empty allow-pattern list. -/
def emptyAllowConfig : SourceConfig :=
  { name := "Test", domain_tag := "stock_equity", source_org := "Test",
    start_urls := ["https://example.com"],
    allowMatchers := [], denyMatchers := [denyPatLogin] }

/-- Modelled from the spec (claim C5 wording): the storage-path short
title as the claim describes it — the trailing path segment of the source
URL sanitized to alphanumerics, spaces and hyphens only, spaces replaced
by underscores, at most 30 characters.  Kept for comparison with the
code's `short_title_from_url`. -/
def claimShortTitle (url : String) : String :=
  let seg := lastSegment (stripSlashes (urlsplitModel url).path.data)
  let kept := seg.filter (fun c => c.isAlphanum || c = ' ' || c = '-')
  String.mk ((kept.map (fun c => if c = ' ' then '_' else c)).take 30)

/-- Modelled from the spec (claim C5 wording): the full storage path as
the claim describes it. -/
def claimStoragePath (today : PyDate) (r : DocumentRecord) : String :=
  let year := match r.published_date with
    | some d => String.mk (natToChars d.year)
    | none => String.mk (natToChars today.year)
  let date_str := match r.published_date with
    | some d => fmtDate d
    | none => "undated"
  r.domain ++ "/" ++ lowerUnderscoreOrg r.source_org ++ "/" ++ year ++ "/" ++
    r.file_type ++ "__" ++ claimShortTitle r.source_url ++ "__" ++ date_str ++ "." ++ r.file_type

/-- The year component of the storage path (published year, else the
current year). -/
def yearComponent (today : PyDate) (r : DocumentRecord) : String :=
  match r.published_date with
  | some d => String.mk (natToChars d.year)
  | none => String.mk (natToChars today.year)

/-- The date component of the storage path. -/
def dateComponent (r : DocumentRecord) : String :=
  match r.published_date with
  | some d => fmtDate d
  | none => "undated"

/-- A record as `_create_document_record` builds it (`storage_path` left
at its schema default `None`); the source URL has an underscore in its
trailing segment. -/
def sampleRecord : DocumentRecord :=
  { id := generate_document_id "https://example.com/a_b.pdf" "a_b.pdf",
    title := "a_b.pdf",
    domain := "gold",
    source_org := "RBI",
    source_url := "https://example.com/a_b.pdf",
    file_type := "pdf",
    quality_flags := {} }

def sampleToday : PyDate := ⟨2026, 10, 12⟩

/-! ## Theorems for the claims -/

example : generate_document_id "https://example.com/doc1.pdf" "Document 1" =
    "af3ee103a835a5a5fca01d74d8e8a1168b6b3856" := by decide

/-- C3 counterexample: the claim orders MM-sep-YYYY before the bare
4-digit-year pattern and expects absence for "1850".  On the code, the
bare-year pattern is tried first, so "03/2024" parses to 2024-01-01 (the
standalone "2024" wins), not 2024-03-01; and "1850" is handed to the fuzzy
dateutil fallback, whose result (here a date in year 1850) is returned
rather than absence. -/
theorem parse_date_string_order_counterexample :
    parse_date_string (fun _ => none) "03/2024" = some ⟨2024, 1, 1⟩ ∧
    parse_date_string (fun _ => none) "03/2024" ≠ some ⟨2024, 3, 1⟩ ∧
    parse_date_string (fun _ => some ⟨1850, 6, 1⟩) "1850" = some ⟨1850, 6, 1⟩ := by
  decide

/-- C3 (amended): parse_date_string tries YYYY-sep-MM-sep-DD first; a
DD-sep-MM-sep-YYYY match is attempted next but is unpacked as
(year, month, day), so the four-digit year lands in the day slot and the
pattern always falls through; then a bare 4-digit year in [1900, 2030]
(January 1); then MM-sep-YYYY; then the fuzzy dateutil fallback, whose
result is returned as-is.  Hence "2024-03-15" gives 2024-03-15, "2024"
gives 2024-01-01, "03/2024" gives 2024-01-01 (bare year beats MM-YYYY),
"1850" yields whatever the fuzzy fallback yields, and "15-03-2024" also
falls through to the bare year, giving 2024-01-01. -/
theorem parse_date_string_amended (fuzzy : String → Option PyDate) :
    parse_date_string fuzzy "2024-03-15" = some ⟨2024, 3, 15⟩ ∧
    parse_date_string fuzzy "2024" = some ⟨2024, 1, 1⟩ ∧
    parse_date_string fuzzy "03/2024" = some ⟨2024, 1, 1⟩ ∧
    parse_date_string fuzzy "1850" = fuzzy "1850" ∧
    parse_date_string fuzzy "15-03-2024" = some ⟨2024, 1, 1⟩ :=
  ⟨rfl, rfl, rfl, rfl, rfl⟩

/-- C8: an empty allow-pattern list behaves as allow-all (the decision
reduces to the deny check), any deny match forces rejection, and on the
spec scenario config the pdf URL is accepted while the login URL and the
foreign-host URL are rejected. -/
theorem should_process_url_spec :
    (∀ (c : SourceConfig) (url : String), c.allowMatchers.isEmpty = true →
        c.should_process_url url = !c.is_url_denied url) ∧
    (∀ (c : SourceConfig) (url : String), c.is_url_denied url = true →
        c.should_process_url url = false) ∧
    scenarioConfig.should_process_url "https://example.com/doc.pdf" = true ∧
    scenarioConfig.should_process_url "https://example.com/login" = false ∧
    scenarioConfig.should_process_url "https://other.com/doc.pdf" = false := by
  refine ⟨?_, ?_, by decide, by decide, by decide⟩
  · intro c url h
    simp [SourceConfig.should_process_url, SourceConfig.is_url_allowed, h]
  · intro c url h
    simp [SourceConfig.should_process_url, h]

/-- Witness for C8: the hypotheses are satisfiable — a config with no
allow patterns, and the scenario config on its denied URL. -/
theorem should_process_url_spec_witness :
    emptyAllowConfig.should_process_url "https://example.com/whatever" =
      !emptyAllowConfig.is_url_denied "https://example.com/whatever" ∧
    scenarioConfig.should_process_url "https://example.com/login" = false :=
  ⟨should_process_url_spec.1 emptyAllowConfig "https://example.com/whatever" (by decide),
   should_process_url_spec.2.1 scenarioConfig "https://example.com/login" (by decide)⟩

/-- C9: generate_document_id is exactly the SHA-1 hex digest of the
UTF-8 bytes of url ++ "|" ++ title, and is deterministic in (url, title). -/
theorem generate_document_id_spec (url title : String) :
    generate_document_id url title = sha1Hex (utf8Bytes (url ++ "|" ++ title)) ∧
    ∀ url₂ title₂, url = url₂ → title = title₂ →
      generate_document_id url title = generate_document_id url₂ title₂ :=
  ⟨rfl, fun _ _ hu ht => by rw [hu, ht]⟩

/-- Witness for C9 at a concrete (url, title) pair. -/
theorem generate_document_id_spec_witness :
    generate_document_id "https://example.com/doc1.pdf" "Document 1" =
      sha1Hex (utf8Bytes ("https://example.com/doc1.pdf" ++ "|" ++ "Document 1")) ∧
    generate_document_id "https://example.com/doc1.pdf" "Document 1" =
      generate_document_id "https://example.com/doc1.pdf" "Document 1" :=
  ⟨(generate_document_id_spec "https://example.com/doc1.pdf" "Document 1").1,
   (generate_document_id_spec "https://example.com/doc1.pdf" "Document 1").2
     "https://example.com/doc1.pdf" "Document 1" rfl rfl⟩

/-- C1: the code does not retry transient HTTP status codes, because
httpx returns responses (of any status) instead of raising, and the
except-HTTPStatusError branch listing 429/500/502/503/504 is unreachable.
First conjunct: a server answering 503 on every attempt has its 503
response returned at once — no backoff sleep, cache upserted with status
503.  Second and third conjuncts show the retry machinery the claim
describes does run for network-level exceptions: two transport errors then
a 200 yield the 200 content after 1s + 2s of backoff, and three transport
errors exhaust the retries and surface the exception. -/
theorem fetch_status_503_not_retried :
    (fetch (fun _ _ => GetOutcome.resp ⟨503, [99], []⟩) "finance-crawler-mvp/0.1"
        "https://example.com/x.pdf" [] 0 3 =
      (FetchOut.ok ⟨"https://example.com/x.pdf", 503, some [99], [], false⟩,
        [⟨"https://example.com/x.pdf", none, none, 503, 0⟩], 0)) ∧
    (fetch (fun attempt _ => if attempt < 2 then GetOutcome.netExc
          else GetOutcome.resp ⟨200, [42], []⟩) "finance-crawler-mvp/0.1"
        "https://example.com/x.pdf" [] 0 3 =
      (FetchOut.ok ⟨"https://example.com/x.pdf", 200, some [42], [], false⟩,
        [⟨"https://example.com/x.pdf", none, none, 200, 0⟩], 3)) ∧
    (fetch (fun _ _ => GetOutcome.netExc) "finance-crawler-mvp/0.1"
        "https://example.com/x.pdf" [] 0 3 = (FetchOut.raised, [], 3)) := by
  decide

/-- C2: when fetching robots.txt fails, is_allowed is not fail-open.  A
network-level exception leaves the parser unread and can_fetch then
returns False (last_checked is unset); HTTP 401/403 set disallow_all
(False); HTTP 5xx also leaves the parser unread (False).  Only a 4xx
other than 401/403 produces the allow the claim expects. -/
theorem robots_fetch_failure_fails_closed
    (evalRules : List String → String → String → Bool) :
    ((RobotsChecker.is_allowed evalRules (fun _ => RobotsFetchOutcome.netExc) []
        "https://example.com/page.html" "finance-crawler-mvp/0.1").1 = false) ∧
    ((RobotsChecker.is_allowed evalRules (fun _ => RobotsFetchOutcome.httpError 403) []
        "https://example.com/page.html" "finance-crawler-mvp/0.1").1 = false) ∧
    ((RobotsChecker.is_allowed evalRules (fun _ => RobotsFetchOutcome.httpError 503) []
        "https://example.com/page.html" "finance-crawler-mvp/0.1").1 = false) ∧
    ((RobotsChecker.is_allowed evalRules (fun _ => RobotsFetchOutcome.httpError 404) []
        "https://example.com/page.html" "finance-crawler-mvp/0.1").1 = true) :=
  ⟨rfl, rfl, rfl, rfl⟩

/-- C6: with dry_run set, save_document performs no writes and reports
the record's storage_path field — but that field is still at its schema
default None for a freshly built record, because the assignment happens
after the dry-run early return.  The last conjunct shows the path a
non-dry-run save of the same record would have written and reported. -/
theorem save_document_dry_run_reports_unassigned_path :
    (∀ (today : PyDate) (fes : String → Bool) (r : DocumentRecord) (content : List Nat),
        (save_document today fes r content true).writes = [] ∧
        (save_document today fes r content true).reported = r.storage_path) ∧
    (save_document sampleToday (fun _ => false) sampleRecord [7] true).reported = none ∧
    (save_document sampleToday (fun _ => false) sampleRecord [7] false).reported =
      some "gold/rbi/2026/pdf__a_b__undated.pdf" ∧
    (save_document sampleToday (fun _ => false) sampleRecord [7] false).writes =
      [WriteEvent.mkdirParent "gold/rbi/2026/pdf__a_b__undated.pdf",
       WriteEvent.fileWrite "gold/rbi/2026/pdf__a_b__undated.pdf" [7],
       WriteEvent.catalogAppend
         { sampleRecord with storage_path := some "gold/rbi/2026/pdf__a_b__undated.pdf" }] := by
  exact ⟨fun _ _ _ _ => ⟨rfl, rfl⟩, rfl, by decide, by decide⟩

/-- C4: when the URL has a stored cache entry and the server answers the
conditional GET with 304, fetch returns cached = true with no content and
no backoff sleep, and the cache is returned exactly as it was — the
upsert of etag, last-modified, status and stored-at is skipped. -/
theorem fetch_304_cache_unchanged
    (env : Nat → List (String × String) → GetOutcome) (ua url : String)
    (cache : List CacheEntry) (now maxRetries : Nat) (e : CacheEntry) (r : HttpResponse)
    (_hce : getCacheEntry cache url = some e)
    (hst : r.status = 304)
    (henv : env 0 (condHeaders ua (getCacheEntry cache url)) = GetOutcome.resp r)
    (hmr : 1 ≤ maxRetries) :
    fetch env ua url cache now maxRetries =
      (FetchOut.ok ⟨url, 200, none, r.headers, true⟩, cache, 0) := by
  obtain ⟨k, rfl⟩ : ∃ k, maxRetries = k + 1 := ⟨maxRetries - 1, by omega⟩
  unfold fetch
  simp [fetchLoop, henv, hst]

/-- Witness for C4: a cache holding an ETag for the URL and a transport
answering 304 on the first attempt. -/
theorem fetch_304_cache_unchanged_witness :
    fetch (fun _ _ => GetOutcome.resp ⟨304, [], [("etag", "t")]⟩) "finance-crawler-mvp/0.1"
        "https://example.com/a.pdf" [⟨"https://example.com/a.pdf", some "t", none, 200, 5⟩] 7 3 =
      (FetchOut.ok ⟨"https://example.com/a.pdf", 200, none, [("etag", "t")], true⟩,
        [⟨"https://example.com/a.pdf", some "t", none, 200, 5⟩], 0) :=
  fetch_304_cache_unchanged (fun _ _ => GetOutcome.resp ⟨304, [], [("etag", "t")]⟩)
    "finance-crawler-mvp/0.1" "https://example.com/a.pdf"
    [⟨"https://example.com/a.pdf", some "t", none, 200, 5⟩] 7 3
    ⟨"https://example.com/a.pdf", some "t", none, 200, 5⟩ ⟨304, [], [("etag", "t")]⟩
    (by decide) rfl rfl (by decide)

/-- C10: a 304 answer makes fetch return a dictionary whose status_code
is 200 (the 304 is never exposed) with content None, so the frontier gate
in GenericSpider.crawl passes the status check and abandons the entry only
at the empty-content check. -/
theorem fetch_304_status200_gate
    (env : Nat → List (String × String) → GetOutcome) (ua url : String)
    (cache : List CacheEntry) (now maxRetries : Nat) (r : HttpResponse)
    (hst : r.status = 304)
    (henv : env 0 (condHeaders ua (getCacheEntry cache url)) = GetOutcome.resp r)
    (hmr : 1 ≤ maxRetries) :
    ∃ res : FetchOk,
      (fetch env ua url cache now maxRetries).1 = FetchOut.ok res ∧
      res.status_code = 200 ∧ res.content = none ∧
      frontierGate (FetchOut.ok res) = GateDecision.abandonContent := by
  obtain ⟨k, rfl⟩ : ∃ k, maxRetries = k + 1 := ⟨maxRetries - 1, by omega⟩
  refine ⟨⟨url, 200, none, r.headers, true⟩, ?_, rfl, rfl, rfl⟩
  unfold fetch
  simp [fetchLoop, henv, hst]

/-- Witness for C10: the same 304 scenario, without a prior cache entry
needed. -/
theorem fetch_304_status200_gate_witness :
    ∃ res : FetchOk,
      (fetch (fun _ _ => GetOutcome.resp ⟨304, [], []⟩) "finance-crawler-mvp/0.1"
          "https://example.com/b.pdf" [] 9 3).1 = FetchOut.ok res ∧
      res.status_code = 200 ∧ res.content = none ∧
      frontierGate (FetchOut.ok res) = GateDecision.abandonContent :=
  fetch_304_status200_gate (fun _ _ => GetOutcome.resp ⟨304, [], []⟩) "finance-crawler-mvp/0.1"
    "https://example.com/b.pdf" [] 9 3 ⟨304, [], []⟩ rfl rfl (by decide)

/-- Characters surviving the whitespace-collapsing sub are underscores or
non-whitespace characters of the input. -/
theorem collapseSpacesAux_mem (c : Char) :
    ∀ (l : List Char) (b : Bool), c ∈ collapseSpacesAux b l →
      c = '_' ∨ (c ∈ l ∧ isSpaceChar c = false) := by
  intro l
  induction l with
  | nil => intro b h; cases h
  | cons a rest ih =>
      intro b h
      simp only [collapseSpacesAux] at h
      by_cases ha : isSpaceChar a = true
      · rw [if_pos ha] at h
        cases b with
        | true =>
            rcases ih true h with h1 | ⟨h2, h3⟩
            · exact Or.inl h1
            · exact Or.inr ⟨List.mem_cons_of_mem _ h2, h3⟩
        | false =>
            simp only [Bool.false_eq_true, if_false] at h
            rcases List.mem_cons.mp h with rfl | h4
            · exact Or.inl rfl
            · rcases ih true h4 with h1 | ⟨h2, h3⟩
              · exact Or.inl h1
              · exact Or.inr ⟨List.mem_cons_of_mem _ h2, h3⟩
      · rw [if_neg ha] at h
        rcases List.mem_cons.mp h with rfl | h4
        · exact Or.inr ⟨List.mem_cons_self _ _, Bool.not_eq_true _ ▸ ha⟩
        · rcases ih false h4 with h1 | ⟨h2, h3⟩
          · exact Or.inl h1
          · exact Or.inr ⟨List.mem_cons_of_mem _ h2, h3⟩

/-- Characters produced by the sanitize-then-collapse pipeline of
short_title_from_url are alphanumerics, underscores or hyphens. -/
theorem shortTitle_chars_aux (l : List Char) (c : Char)
    (hc : c ∈ (collapseSpacesAux false
        (l.filter (fun c => isWordChar c || isSpaceChar c || c = '-'))).take 50) :
    c.isAlphanum = true ∨ c = '_' ∨ c = '-' := by
  have h1 := List.mem_of_mem_take hc
  rcases collapseSpacesAux_mem c _ false h1 with h | ⟨h2, h3⟩
  · exact Or.inr (Or.inl h)
  · have h4 := (List.mem_filter.mp h2).2
    simp only [isWordChar, h3, Bool.or_eq_true, decide_eq_true_eq, Bool.false_eq_true,
      false_or] at h4
    tauto

/-- The character classes of the full short-title result, for an arbitrary
filename: either the "document" default or the pipeline output. -/
theorem shortTitleResult_chars (l : List Char) (c : Char)
    (hc : c ∈ (if (collapseSpacesAux false
          (l.filter (fun c => isWordChar c || isSpaceChar c || c = '-'))).take 50 = []
        then ("document" : String)
        else String.mk ((collapseSpacesAux false
          (l.filter (fun c => isWordChar c || isSpaceChar c || c = '-'))).take 50)).data) :
    c.isAlphanum = true ∨ c = '_' ∨ c = '-' := by
  split at hc
  · rw [show ("document" : String).data = ['d', 'o', 'c', 'u', 'm', 'e', 'n', 't'] from rfl] at hc
    simp only [List.mem_cons, List.not_mem_nil, or_false] at hc
    rcases hc with rfl | rfl | rfl | rfl | rfl | rfl | rfl | rfl <;> decide
  · exact shortTitle_chars_aux l c hc

/-- Every character of a short title is an alphanumeric, an underscore or
a hyphen (in particular no whitespace and no dots survive). -/
theorem short_title_chars (url : String) :
    ∀ c ∈ (short_title_from_url url).data, c.isAlphanum = true ∨ c = '_' ∨ c = '-' := by
  intro c hc
  exact shortTitleResult_chars
    (stripExtension (if stripSlashes (urlsplitModel url).path.data = []
      then ("document" : String).data
      else lastSegment (stripSlashes (urlsplitModel url).path.data))) c hc

/-- C5 counterexample: for a record whose source URL trailing segment is
a_b.pdf, the code keeps the underscore and strips the extension, producing
pdf__a_b__undated.pdf, while the claim's sanitization (alphanumerics,
spaces and hyphens only, applied to the raw trailing segment) would
produce pdf__abpdf__undated.pdf. -/
theorem storage_path_counterexample :
    generate_storage_path sampleToday sampleRecord = "gold/rbi/2026/pdf__a_b__undated.pdf" ∧
    claimStoragePath sampleToday sampleRecord = "gold/rbi/2026/pdf__abpdf__undated.pdf" ∧
    generate_storage_path sampleToday sampleRecord ≠ claimStoragePath sampleToday sampleRecord := by
  decide

/-- The 30-character truncation step of the storage path, over an
arbitrary string. -/
theorem truncate30_spec (s : String) :
    (if s.length > 30 then String.mk (s.data.take 30) else s).data = s.data.take 30 ∧
    (if s.length > 30 then String.mk (s.data.take 30) else s).length ≤ 30 := by
  constructor
  · split
    · rfl
    · next h =>
        refine (List.take_of_length_le ?_).symm
        have hl : s.data.length = s.length := rfl
        omega
  · split
    · next =>
        show (s.data.take 30).length ≤ 30
        simp [List.length_take]
    · next h =>
        show s.length ≤ 30
        omega

set_option maxHeartbeats 1000000 in
/-- C5 (amended): the storage path is exactly
domain/org-lowercased-underscored/year/filetype__short_title__date.filetype,
with year the published year (else the current year) and date YYYY-MM-DD
(else "undated"), where short_title is the trailing path segment of the
source URL with its final extension stripped, keeping alphanumerics,
underscores, whitespace and hyphens, whitespace runs then replaced by
single underscores (so the result has only alphanumerics, underscores and
hyphens), truncated to 30 characters, defaulting to "document" when empty. -/
theorem generate_storage_path_format (today : PyDate) (r : DocumentRecord) :
    ∃ st : String,
      generate_storage_path today r =
        r.domain ++ "/" ++ lowerUnderscoreOrg r.source_org ++ "/" ++ yearComponent today r ++
          "/" ++ (r.file_type ++ "__" ++ st ++ "__" ++ dateComponent r ++ "." ++ r.file_type) ∧
      st.data = (short_title_from_url r.source_url).data.take 30 ∧
      st.length ≤ 30 ∧
      ∀ c ∈ st.data, c.isAlphanum = true ∨ c = '_' ∨ c = '-' := by
  obtain ⟨hdata, hlen⟩ := truncate30_spec (short_title_from_url r.source_url)
  refine ⟨if (short_title_from_url r.source_url).length > 30 then
      String.mk ((short_title_from_url r.source_url).data.take 30)
    else short_title_from_url r.source_url, rfl, hdata, hlen, ?_⟩
  intro c hc
  rw [hdata] at hc
  exact short_title_chars r.source_url c (List.mem_of_mem_take hc)

/-- The loop body after mark-visited never changes the visited set. -/
theorem spiderStep_visited (cfg : SourceConfig) (env : CrawlEnv) (url : String) (depth : Nat)
    (st' : CrawlState) : ((spiderStep cfg env url depth st').2.1).visited = st'.visited := by
  unfold spiderStep
  cases frontierGate (env.fetchF url) with
  | abandonStatus => rfl
  | abandonContent => rfl
  | proceed content =>
      cases url_filetype url with
      | none => rfl
      | some ft =>
          dsimp only
          split
          · rfl
          · split
            · cases env.createRecord url content ft with
              | none => rfl
              | some doc => rfl
            · rfl

/-- The visited set of the spider only ever grows during a crawl run. -/
theorem crawlAux_visited_mono (cfg : SourceConfig) (env : CrawlEnv) (mp : Nat) :
    ∀ (fuel : Nat) (queue : List (String × Nat)) (st : CrawlState),
      st.visited ⊆ ((crawlAux cfg env mp fuel queue st).2.1).visited := by
  intro fuel
  induction fuel with
  | zero => intro queue st; exact fun _ h => h
  | succ n ih =>
      intro queue st
      cases queue with
      | nil => exact fun _ h => h
      | cons hd rest =>
          obtain ⟨url, depth⟩ := hd
          simp only [crawlAux]
          split
          · exact fun _ h => h
          split
          · exact ih rest st
          split
          · exact ih rest st
          split
          · exact ih rest st
          · intro a ha
            refine ih _ _ ?_
            rw [spiderStep_visited]
            exact List.mem_cons_of_mem _ ha

/-- Fetched URLs are pairwise distinct, were not visited before the run,
and are visited afterwards. -/
theorem crawlAux_log_spec (cfg : SourceConfig) (env : CrawlEnv) (mp : Nat) :
    ∀ (fuel : Nat) (queue : List (String × Nat)) (st : CrawlState),
      ((crawlAux cfg env mp fuel queue st).2.2).Nodup ∧
      ∀ u ∈ (crawlAux cfg env mp fuel queue st).2.2,
        u ∉ st.visited ∧ u ∈ ((crawlAux cfg env mp fuel queue st).2.1).visited := by
  intro fuel
  induction fuel with
  | zero =>
      intro queue st
      exact ⟨List.nodup_nil, fun u hu => absurd hu (List.not_mem_nil u)⟩
  | succ n ih =>
      intro queue st
      cases queue with
      | nil => exact ⟨List.nodup_nil, fun u hu => absurd hu (List.not_mem_nil u)⟩
      | cons hd rest =>
          obtain ⟨url, depth⟩ := hd
          simp only [crawlAux]
          split
          · exact ⟨List.nodup_nil, fun u hu => absurd hu (List.not_mem_nil u)⟩
          split
          · exact ih rest st
          split
          · exact ih rest st
          split
          · exact ih rest st
          · next hguard _ _ =>
              have hnv : url ∉ st.visited := by
                intro hmem
                exact hguard (by simp [hmem])
              have hvis := spiderStep_visited cfg env url depth
                { st with visited := url :: st.visited }
              obtain ⟨hnodup, hmem⟩ := ih
                (rest ++ (spiderStep cfg env url depth { st with visited := url :: st.visited }).1)
                (spiderStep cfg env url depth { st with visited := url :: st.visited }).2.1
              constructor
              · refine List.nodup_cons.mpr ⟨?_, hnodup⟩
                intro hin
                have h1 := (hmem url hin).1
                rw [hvis] at h1
                exact h1 (List.mem_cons_self _ _)
              · intro u hu
                rcases List.mem_cons.mp hu with rfl | hu2
                · refine ⟨hnv, ?_⟩
                  refine crawlAux_visited_mono cfg env mp n _ _ ?_
                  rw [hvis]
                  exact List.mem_cons_self _ _
                · obtain ⟨h1, h2⟩ := hmem u hu2
                  rw [hvis] at h1
                  exact ⟨fun hin => h1 (List.mem_cons_of_mem _ hin), h2⟩

/-- C7: within one crawl invocation the frontier never passes a URL to
the fetcher twice (the fetch log is duplicate-free), every fetched URL was
outside the visited set at dequeue time and inside it afterwards (the
mark-visited happens before the fetch), the visited set only grows, and a
second crawl run over the same spider state (as when the same seed or
graph is processed twice in one invocation) fetches no URL of the first
run: the combined fetch log is still duplicate-free. -/
theorem crawl_no_refetch (cfg : SourceConfig) (env₁ env₂ : CrawlEnv)
    (mp₁ mp₂ fuel₁ fuel₂ : Nat) (st : CrawlState) :
    ((crawl cfg env₁ mp₁ fuel₁ st).2.2).Nodup ∧
    (∀ u ∈ (crawl cfg env₁ mp₁ fuel₁ st).2.2,
        u ∉ st.visited ∧ u ∈ ((crawl cfg env₁ mp₁ fuel₁ st).2.1).visited) ∧
    st.visited ⊆ ((crawl cfg env₁ mp₁ fuel₁ st).2.1).visited ∧
    ((crawl cfg env₁ mp₁ fuel₁ st).2.2 ++
      (crawl cfg env₂ mp₂ fuel₂ (crawl cfg env₁ mp₁ fuel₁ st).2.1).2.2).Nodup := by
  have h1 := crawlAux_log_spec cfg env₁ mp₁ fuel₁ (cfg.start_urls.map fun u => (u, 0)) st
  have h2 := crawlAux_log_spec cfg env₂ mp₂ fuel₂ (cfg.start_urls.map fun u => (u, 0))
    (crawl cfg env₁ mp₁ fuel₁ st).2.1
  have hm := crawlAux_visited_mono cfg env₁ mp₁ fuel₁ (cfg.start_urls.map fun u => (u, 0)) st
  refine ⟨h1.1, h1.2, hm, ?_⟩
  rw [List.nodup_append]
  refine ⟨h1.1, h2.1, ?_⟩
  intro a ha hb
  exact (h2.2 a hb).1 ((h1.2 a ha).2)

end FinanceCrawler
